import Mathlib

/-!
Verification of the AurumFox (foxcoin) backend core: the staking
reward-accrual engine and state machine (`backend/routes/staking.js`,
`backend/models/StakingUser.js`) and the DAO proposal voting state machine
(`backend/routes/dao.js`, `backend/models/DaoProposal.js`).

Modelling conventions:
* JS numbers (amounts, rewards, rates) and millisecond timestamps are
  modelled as rationals (`ℚ`); `Date.now()` is passed explicitly as a `now`
  parameter instead of being read from a clock inside the function.
* The document store is modelled per key: each route receives the
  `findOne`/`findById` result as an `Option` of the record and returns the
  (possibly) saved record alongside its HTTP-level outcome.  Mongoose schema
  validation that runs on `save()` is modelled by an explicit validity check;
  an invalid save surfaces as a server error and leaves the store unchanged.
* `voters.push`/`includes` on the Mongoose array are modelled as list append
  and list membership.
-/

namespace Foxcoin

/-- Annual percentage rate constant of the staking routes: `STAKING_APR = 0.10`. -/
def STAKING_APR : ℚ := 1/10

/-- `calculateRewards` from `backend/routes/staking.js` (lines 9–17): converts the
elapsed time since `lastStakedOrUnstaked` to hours, the APR to a daily rate, and
multiplies `stakedAmount * dailyRate * (timeDiffHours / 24)`.  `Date.now()` is the
explicit `now` argument. -/
def calculateRewards (stakedAmount lastDate now : ℚ) : ℚ :=
  let timeDiffHours := (now - lastDate) / (1000 * 60 * 60)
  let dailyRate := STAKING_APR / 365
  stakedAmount * dailyRate * (timeDiffHours / 24)

/-- Reference accrual formula stated by the spec:
`stakedAmount * (annualRate/365) * (elapsedTimeMs / 86_400_000)`. -/
def accrue (stakedAmount elapsedTimeMs annualRate : ℚ) : ℚ :=
  stakedAmount * (annualRate / 365) * (elapsedTimeMs / 86400000)

/-- The source's hour-based accrual computation, generalized over the annual rate:
`stakedAmount * (rate/365) * ((elapsedTimeMs/3_600_000)/24)`.  At
`annualRate = STAKING_APR` and `elapsedTimeMs = now - lastDate` this is exactly
`calculateRewards`. -/
def accrueHours (stakedAmount elapsedTimeMs annualRate : ℚ) : ℚ :=
  stakedAmount * (annualRate / 365) * ((elapsedTimeMs / 3600000) / 24)

/-- Per-wallet staking record, after `backend/models/StakingUser.js`.  The
`walletAddress` key is kept outside the record (the store is modelled per
wallet); `lastClaimed` and `lastStakedOrUnstaked` default to `Date.now()` at
creation time. -/
structure StakingUser where
  stakedAmount : ℚ
  rewards : ℚ
  lastClaimed : ℚ
  lastStakedOrUnstaked : ℚ
deriving Repr, DecidableEq

/-- A freshly constructed `new StakingUser({ walletAddress })`: schema defaults
`stakedAmount = 0`, `rewards = 0`, both timestamps `Date.now()`. -/
def newStakingUser (now : ℚ) : StakingUser :=
  { stakedAmount := 0, rewards := 0, lastClaimed := now, lastStakedOrUnstaked := now }

/-- Mongoose schema validation run by `user.save()`: `stakedAmount` and `rewards`
carry `min: 0` constraints. -/
def stakingUserValid (u : StakingUser) : Bool :=
  0 ≤ u.stakedAmount && 0 ≤ u.rewards

/-- Outcome of `POST /api/staking/stake`. -/
inductive StakeResult where
  /-- 400: missing wallet address or non-positive amount. -/
  | badRequest
  /-- 500: `save()` rejected the record. -/
  | serverError
  /-- 200 with the saved user. -/
  | ok (user : StakingUser)
deriving Repr, DecidableEq

/-- The mutate step of the stake route, from the loaded `findOne` snapshot:
create a fresh record if absent, otherwise fold the accrued rewards into
`rewards` first; then increase `stakedAmount` and stamp `lastStakedOrUnstaked`. -/
def stakeCompute (loaded : Option StakingUser) (amount now : ℚ) : StakingUser :=
  let user :=
    match loaded with
    | none => newStakingUser now
    | some u =>
      { u with rewards := u.rewards + calculateRewards u.stakedAmount u.lastStakedOrUnstaked now }
  { user with stakedAmount := user.stakedAmount + amount, lastStakedOrUnstaked := now }

/-- `POST /api/staking/stake` (staking.js lines 41–66).  `!walletAddress` is the
JS falsiness test on the string (empty string); `!amount || amount <= 0`
collapses to `amount ≤ 0` on numbers. -/
def stake (st : Option StakingUser) (walletAddress : String) (amount now : ℚ) :
    StakeResult × Option StakingUser :=
  if walletAddress = "" ∨ amount ≤ 0 then (.badRequest, st)
  else
    let user := stakeCompute st amount now
    if stakingUserValid user then (.ok user, some user) else (.serverError, st)

/-- Outcome of `POST /api/staking/claim-rewards`. -/
inductive ClaimResult where
  /-- 400: missing wallet address. -/
  | badRequest
  /-- 404: no staking record for this wallet. -/
  | notFound
  /-- 400: `currentRewards <= 0`. -/
  | nothingToClaim
  /-- 500: `save()` rejected the record. -/
  | serverError
  /-- 200, reporting the claimed amount. -/
  | claimed (amount : ℚ)
deriving Repr, DecidableEq

/-- `POST /api/staking/claim-rewards` (staking.js lines 69–98). -/
def claimRewards (st : Option StakingUser) (walletAddress : String) (now : ℚ) :
    ClaimResult × Option StakingUser :=
  if walletAddress = "" then (.badRequest, st)
  else
    match st with
    | none => (.notFound, none)
    | some u =>
      let currentRewards := u.rewards + calculateRewards u.stakedAmount u.lastStakedOrUnstaked now
      if currentRewards ≤ 0 then (.nothingToClaim, some u)
      else
        let u' := { u with rewards := 0, lastClaimed := now, lastStakedOrUnstaked := now }
        if stakingUserValid u' then (.claimed currentRewards, some u')
        else (.serverError, some u)

/-- Outcome of `POST /api/staking/unstake`. -/
inductive UnstakeResult where
  /-- 400: missing wallet address. -/
  | badRequest
  /-- 404: no staking record for this wallet. -/
  | notFound
  /-- 400: `stakedAmount <= 0`. -/
  | nothingStaked
  /-- 500: `save()` rejected the record. -/
  | serverError
  /-- 200, reporting the returned total (principal + folded rewards). -/
  | unstaked (total : ℚ)
deriving Repr, DecidableEq

/-- `POST /api/staking/unstake` (staking.js lines 101–132): folds accrual into
`rewards`, returns `stakedAmount + rewards`, then zeroes both and stamps both
timestamps. -/
def unstake (st : Option StakingUser) (walletAddress : String) (now : ℚ) :
    UnstakeResult × Option StakingUser :=
  if walletAddress = "" then (.badRequest, st)
  else
    match st with
    | none => (.notFound, none)
    | some u =>
      if u.stakedAmount ≤ 0 then (.nothingStaked, some u)
      else
        let rewards' := u.rewards + calculateRewards u.stakedAmount u.lastStakedOrUnstaked now
        let total := u.stakedAmount + rewards'
        let u' : StakingUser :=
          { stakedAmount := 0, rewards := 0, lastStakedOrUnstaked := now, lastClaimed := now }
        if stakingUserValid u' then (.unstaked total, some u')
        else (.serverError, some u)

/-- Response body of `GET /api/staking/:walletAddress`; absent timestamps are the
JSON `null`s of the no-record branch. -/
structure QueryView where
  stakedAmount : ℚ
  rewards : ℚ
  lastClaimed : Option ℚ
  lastStakedOrUnstaked : Option ℚ
deriving Repr, DecidableEq

/-- `GET /api/staking/:walletAddress` (staking.js lines 20–38): recomputes the
live reward on read and performs no save; missing record yields the all-zero
view.  The returned store component is the untouched input. -/
def queryStaking (st : Option StakingUser) (now : ℚ) : QueryView × Option StakingUser :=
  match st with
  | some u =>
    ({ stakedAmount := u.stakedAmount
     , rewards := u.rewards + calculateRewards u.stakedAmount u.lastStakedOrUnstaked now
     , lastClaimed := some u.lastClaimed
     , lastStakedOrUnstaked := some u.lastStakedOrUnstaked }, some u)
  | none =>
    ({ stakedAmount := 0, rewards := 0, lastClaimed := none, lastStakedOrUnstaked := none }, none)

/-- One character of the base58 alphabet used by the repository's Solana wallet
address regex `[1-9A-HJ-NP-Za-km-z]`. -/
def isBase58Char (c : Char) : Bool :=
  (('1' ≤ c && c ≤ '9') || ('A' ≤ c && c ≤ 'H') || ('J' ≤ c && c ≤ 'N') ||
   ('P' ≤ c && c ≤ 'Z') || ('a' ≤ c && c ≤ 'k') || ('m' ≤ c && c ≤ 'z'))

/-- Syntactic Solana wallet-address validation.  The repository's Mongoose models
check `/^[1-9A-HJ-NP-Za-km-z]{32,44}$/`; the DAO routes perform the same
syntactic check via the `new PublicKey(...)` constructor of `@solana/web3.js`
(an external library), which this predicate models. -/
def isValidSolanaAddress (s : String) : Bool :=
  32 ≤ s.length && s.length ≤ 44 && s.toList.all isBase58Char

/-- One hexadecimal character. -/
def isHexChar (c : Char) : Bool :=
  ('0' ≤ c && c ≤ '9') || ('a' ≤ c && c ≤ 'f') || ('A' ≤ c && c ≤ 'F')

/-- `mongoose.Types.ObjectId.isValid` on a string: a 24-character hex string or
any 12-character string. -/
def isValidObjectId (s : String) : Bool :=
  (s.length = 24 && s.toList.all isHexChar) || s.length = 12

/-- Proposal lifecycle status (`backend/models/DaoProposal.js`): `active` or
`completed`; other enum values never arise in the routes. -/
inductive ProposalStatus where
  | active
  | completed
deriving Repr, DecidableEq

/-- Per-proposal voting record, after `backend/models/DaoProposal.js`.  The
generated id is kept outside the record (the store is modelled per proposal). -/
structure DaoProposal where
  title : String
  description : String
  creatorWallet : String
  votesFor : ℕ
  votesAgainst : ℕ
  voters : List String
  expiresAt : ℚ
  status : ProposalStatus
deriving Repr, DecidableEq

/-- Mongoose schema validation run by `proposal.save()` — by default `save()`
validates every path of the document, not only modified ones: title 5–200
chars, description 20–5000 chars, creator wallet matching the Solana address
regex, every entry of `voters` matching the same regex, and the `expiresAt`
validator `value > Date.now()`.  The `min: 0` constraints on the counters are
implicit in their `ℕ` type. -/
def daoProposalValid (p : DaoProposal) (now : ℚ) : Bool :=
  5 ≤ p.title.length && p.title.length ≤ 200 &&
  20 ≤ p.description.length && p.description.length ≤ 5000 &&
  isValidSolanaAddress p.creatorWallet &&
  p.voters.all isValidSolanaAddress &&
  now < p.expiresAt

/-- Outcome of `POST /api/dao/proposals`. -/
inductive CreateResult where
  /-- 400: missing title, description or creator wallet. -/
  | missingFields
  /-- 400: creator wallet is not in Solana public-key format. -/
  | invalidWallet
  /-- 400: Mongoose schema validation failed on save. -/
  | validationError
  /-- 201 with the saved proposal. -/
  | created (p : DaoProposal)
deriving Repr, DecidableEq

/-- `POST /api/dao/proposals` (dao.js lines 199–274): presence check, syntactic
wallet check, then save of a fresh proposal with `expiresAt = now + 7 days`,
`status = active`, zero counters and empty voter list.  The Mongoose `trim`
setters apply to the text fields on save. -/
def createProposal (title description creatorWallet : String) (now : ℚ) : CreateResult :=
  if title = "" ∨ description = "" ∨ creatorWallet = "" then .missingFields
  else if ¬ isValidSolanaAddress creatorWallet then .invalidWallet
  else
    let p : DaoProposal :=
      { title := title.trim,
        description := description.trim,
        creatorWallet := creatorWallet.trim,
        votesFor := 0,
        votesAgainst := 0,
        voters := [],
        expiresAt := now + 7 * 24 * 60 * 60 * 1000,
        status := .active }
    if daoProposalValid p now then .created p else .validationError

/-- Outcome of `POST /api/dao/vote`. -/
inductive VoteResult where
  /-- 400: missing proposal id, vote type or voter wallet. -/
  | missingFields
  /-- 400: proposal id is not a valid ObjectId. -/
  | invalidProposalId
  /-- 400: voter wallet is not in Solana public-key format. -/
  | invalidWallet
  /-- 400: vote type is neither `for` nor `against`. -/
  | invalidVoteType
  /-- 404: no proposal with this id. -/
  | notFound
  /-- 400: voting has ended (`now >= expiresAt`). -/
  | votingClosed
  /-- 409: this wallet has already voted on this proposal. -/
  | duplicateVote
  /-- 500: `proposal.save()` threw (Mongoose schema validation failed), caught
  by the route's catch-all. -/
  | serverError
  /-- 200 with the updated proposal. -/
  | success (p : DaoProposal)
deriving Repr, DecidableEq

/-- `POST /api/dao/vote` (dao.js lines 280–369).  Validation order follows the
route: field presence, ObjectId format, wallet format, vote type; then the
loaded proposal is checked for existence, expiry (lazily completing the
proposal), and duplicate voters before the matching counter is incremented and
the wallet pushed onto `voters`.  `p` is the `findById(proposalId)` result.
Every `proposal.save()` re-runs the Mongoose schema validation
(`daoProposalValid`, all paths); a failing save throws, is caught by the
route's catch-all (500), and persists nothing — so the lazy-expiry status flip
is attempted but its save can only succeed if `now < expiresAt` still holds. -/
def vote (proposalId : String) (p : Option DaoProposal) (voteType voterWallet : String)
    (now : ℚ) : VoteResult × Option DaoProposal :=
  if proposalId = "" ∨ voteType = "" ∨ voterWallet = "" then (.missingFields, p)
  else if ¬ isValidObjectId proposalId then (.invalidProposalId, p)
  else if ¬ isValidSolanaAddress voterWallet then (.invalidWallet, p)
  else if voteType ≠ "for" ∧ voteType ≠ "against" then (.invalidVoteType, p)
  else
    match p with
    | none => (.notFound, none)
    | some prop =>
      if prop.expiresAt ≤ now then
        if prop.status = .active then
          let prop' := { prop with status := .completed }
          if daoProposalValid prop' now then (.votingClosed, some prop')
          else (.serverError, some prop)
        else (.votingClosed, some prop)
      else if voterWallet ∈ prop.voters then (.duplicateVote, some prop)
      else if voteType = "for" then
        let prop' := { prop with votesFor := prop.votesFor + 1,
                                 voters := prop.voters ++ [voterWallet] }
        if daoProposalValid prop' now then (.success prop', some prop')
        else (.serverError, some prop)
      else
        let prop' := { prop with votesAgainst := prop.votesAgainst + 1,
                                 voters := prop.voters ++ [voterWallet] }
        if daoProposalValid prop' now then (.success prop', some prop')
        else (.serverError, some prop)

/-- A sequence of `Vote` calls against the same proposal: each list entry is
`(proposalId, voteType, voterWallet, now)`. -/
def runVotes (p : Option DaoProposal) (calls : List (String × String × String × ℚ)) :
    Option DaoProposal :=
  calls.foldl (fun st c => (vote c.1 st c.2.1 c.2.2.1 c.2.2.2).2) p

/-! ### Interleaving model of concurrent `stake` handlers

The stake handler awaits twice: once at `StakingUser.findOne` (the load) and
once at `user.save()` (the store write).  Between the two awaits another
handler for the same wallet may run.  Each concurrent handler is modelled as a
thread with two atomic phases: phase one snapshots the store (`findOne`),
phase two computes the updated record from that snapshot (`stakeCompute`, the
route's mutate step) and writes it back if it passes schema validation
(`save`). -/

/-- Progress of one concurrent stake handler: the `findOne` snapshot once
taken, and whether the `save` has run. -/
structure StakeThread where
  loaded : Option (Option StakingUser)
  saved : Bool
deriving Repr, DecidableEq

/-- A handler that has not yet reached its `findOne`. -/
def StakeThread.init : StakeThread := { loaded := none, saved := false }

/-- Shared store plus the per-handler progress of the concurrent stake calls. -/
structure ConcState where
  store : Option StakingUser
  threads : List StakeThread
deriving Repr, DecidableEq

/-- `n` concurrent `Stake` handlers about to run against a store holding `st`. -/
def ConcState.init (n : ℕ) (st : Option StakingUser) : ConcState :=
  { store := st, threads := List.replicate n StakeThread.init }

/-- One atomic step of handler `i`, all handlers staking `amount` at time
`now`: run its `findOne` if it has not loaded yet, otherwise run its
compute-and-`save` from its snapshot; a handler that has saved (or an invalid
index) leaves the state unchanged. -/
def concStep (amount now : ℚ) (s : ConcState) (i : ℕ) : ConcState :=
  match s.threads.get? i with
  | none => s
  | some t =>
    match t.loaded with
    | none => { s with threads := s.threads.set i { t with loaded := some s.store } }
    | some snapshot =>
      if t.saved then s
      else
        let u := stakeCompute snapshot amount now
        let store' := if stakingUserValid u then some u else s.store
        { store := store', threads := s.threads.set i { t with saved := true } }

/-- Run a schedule (a list of handler indices, each occurrence one atomic
step) over the concurrent state. -/
def runSchedule (amount now : ℚ) (s : ConcState) (sched : List ℕ) : ConcState :=
  sched.foldl (concStep amount now) s

/-- `n` sequential (serialized) `Stake` calls for the same wallet from an empty
record: each call's load-mutate-save cycle completes before the next begins. -/
def stakeN (walletAddress : String) (amount now : ℚ) : ℕ → Option StakingUser
  | 0 => none
  | n + 1 => (stake (stakeN walletAddress amount now n) walletAddress amount now).2

/-! ### Basic lemmas about the accrual engine -/

/-- The source's hour-based computation agrees with the spec's reference
formula at the fixed APR. -/
lemma calculateRewards_eq_accrue (s last now : ℚ) :
    calculateRewards s last now = accrue s (now - last) STAKING_APR := by
  simp only [calculateRewards, accrue, STAKING_APR]
  ring

/-- The generalized hour-based computation agrees with the reference formula
at every rate. -/
lemma accrueHours_eq_accrue (s e r : ℚ) : accrueHours s e r = accrue s e r := by
  simp only [accrueHours, accrue]
  ring

lemma accrue_nonneg {s e r : ℚ} (hs : 0 ≤ s) (he : 0 ≤ e) (hr : 0 ≤ r) :
    0 ≤ accrue s e r :=
  mul_nonneg (mul_nonneg hs (div_nonneg hr (by norm_num))) (div_nonneg he (by norm_num))

lemma accrue_zero_elapsed (s r : ℚ) : accrue s 0 r = 0 := by
  simp [accrue]

lemma calculateRewards_self (s t : ℚ) : calculateRewards s t t = 0 := by
  rw [calculateRewards_eq_accrue, sub_self, accrue_zero_elapsed]

lemma accrue_mono {s r : ℚ} (hs : 0 ≤ s) (hr : 0 ≤ r) {e₁ e₂ : ℚ} (h : e₁ ≤ e₂) :
    accrue s e₁ r ≤ accrue s e₂ r := by
  have key : accrue s e₂ r - accrue s e₁ r =
      s * r * (e₂ - e₁) * (1 / (365 * 86400000)) := by
    simp only [accrue]; ring
  have h0 : 0 ≤ accrue s e₂ r - accrue s e₁ r := by
    rw [key]
    exact mul_nonneg (mul_nonneg (mul_nonneg hs hr) (sub_nonneg.2 h)) (by norm_num)
  linarith

lemma calculateRewards_nonneg {s last now : ℚ} (hs : 0 ≤ s) (hle : last ≤ now) :
    0 ≤ calculateRewards s last now := by
  rw [calculateRewards_eq_accrue]
  exact accrue_nonneg hs (sub_nonneg.2 hle) (by norm_num [STAKING_APR])

/-! ### Claim theorems: the accrual engine -/

/-- C7: for all inputs the code's hour-based accrual computation equals the
reference formula `stakedAmount * (annualRate/365) * (elapsedTimeMs/86_400_000)`
(in particular `calculateRewards` equals it at `STAKING_APR` and elapsed
`now - lastDate`), and accrual is monotonically non-decreasing in the elapsed
time for a fixed non-negative principal and rate `0 ≤ r < 1`. -/
theorem accrual_equals_reference_and_monotone :
    (∀ s last now : ℚ, calculateRewards s last now = accrue s (now - last) STAKING_APR) ∧
    (∀ s e r : ℚ, accrueHours s e r = accrue s e r) ∧
    (∀ s r e₁ e₂ : ℚ, 0 ≤ s → 0 ≤ e₁ → 0 ≤ r → r < 1 → e₁ ≤ e₂ →
      accrue s e₁ r ≤ accrue s e₂ r) := by
  refine ⟨calculateRewards_eq_accrue, accrueHours_eq_accrue, ?_⟩
  intro s r e₁ e₂ hs _ hr _ h
  exact accrue_mono hs hr h

/-- Witness for C7: at principal 100, rate 0.10, one day versus two days. -/
theorem accrual_equals_reference_and_monotone_witness :
    accrue 100 86400000 (1/10) ≤ accrue 100 172800000 (1/10) :=
  accrual_equals_reference_and_monotone.2.2 100 (1/10) 86400000 172800000
    (by norm_num) (by norm_num) (by norm_num) (by norm_num) (by norm_num)

/-- C2 (counterexample): negative elapsed time is NOT clamped to 0 by
`calculateRewards` — a wallet whose `lastStakedOrUnstaked` lies one day in the
future of `now` (clock skew) yields a strictly negative reward. -/
theorem calculateRewards_negative_on_clock_skew :
    calculateRewards 100 86400000 0 < 0 := by
  norm_num [calculateRewards, STAKING_APR]

/-- C2 (amended): for every principal `stakedAmount ≥ 0` and non-negative
elapsed time the accrual is `≥ 0`, and zero elapsed time yields exactly 0;
negative elapsed time from clock skew is not clamped and produces a negative
value (see the counterexample). -/
theorem calculateRewards_nonneg_without_skew :
    (∀ s last now : ℚ, 0 ≤ s → last ≤ now → 0 ≤ calculateRewards s last now) ∧
    (∀ s t : ℚ, calculateRewards s t t = 0) :=
  ⟨fun _ _ _ hs hle => calculateRewards_nonneg hs hle, calculateRewards_self⟩

/-- Witness for the amended C2: principal 100 over one day accrues a
non-negative reward. -/
theorem calculateRewards_nonneg_without_skew_witness :
    0 ≤ calculateRewards 100 0 86400000 :=
  calculateRewards_nonneg_without_skew.1 100 0 86400000 (by norm_num) (by norm_num)

/-! ### Lemmas about the staking state machine -/

/-- Successful stake on an existing record: accrual folded into `rewards` at
the old principal before the principal grows. -/
lemma stake_some_eq (u : StakingUser) {w : String} {amount : ℚ} (now : ℚ)
    (hw : w ≠ "") (ha : 0 < amount) (hs : 0 ≤ u.stakedAmount) (hr : 0 ≤ u.rewards)
    (hle : u.lastStakedOrUnstaked ≤ now) :
    stake (some u) w amount now =
      (StakeResult.ok
        { stakedAmount := u.stakedAmount + amount,
          rewards := u.rewards + accrue u.stakedAmount (now - u.lastStakedOrUnstaked) STAKING_APR,
          lastClaimed := u.lastClaimed,
          lastStakedOrUnstaked := now },
       some
        { stakedAmount := u.stakedAmount + amount,
          rewards := u.rewards + accrue u.stakedAmount (now - u.lastStakedOrUnstaked) STAKING_APR,
          lastClaimed := u.lastClaimed,
          lastStakedOrUnstaked := now }) := by
  have hacc : 0 ≤ calculateRewards u.stakedAmount u.lastStakedOrUnstaked now :=
    calculateRewards_nonneg hs hle
  have hvalid : stakingUserValid (stakeCompute (some u) amount now) = true := by
    simp only [stakeCompute, stakingUserValid, Bool.and_eq_true, decide_eq_true_eq]
    exact ⟨by linarith, by linarith⟩
  simp only [stake, stakeCompute] at hvalid ⊢
  rw [if_neg (by push_neg; exact ⟨hw, ha⟩), if_pos hvalid]
  simp only [calculateRewards_eq_accrue]

/-- Successful stake on a fresh wallet: a zero-field record is created first,
then the amount is added. -/
lemma stake_none_eq {w : String} {amount : ℚ} (now : ℚ) (hw : w ≠ "") (ha : 0 < amount) :
    stake none w amount now =
      (StakeResult.ok
        { stakedAmount := amount, rewards := 0, lastClaimed := now, lastStakedOrUnstaked := now },
       some
        { stakedAmount := amount, rewards := 0, lastClaimed := now, lastStakedOrUnstaked := now }) := by
  have hvalid : stakingUserValid (stakeCompute none amount now) = true := by
    simp only [stakeCompute, newStakingUser, stakingUserValid, Bool.and_eq_true,
      decide_eq_true_eq]
    exact ⟨by linarith, le_refl 0⟩
  simp only [stake, stakeCompute, newStakingUser] at hvalid ⊢
  rw [if_neg (by push_neg; exact ⟨hw, ha⟩), if_pos hvalid]
  norm_num

/-! ### Claim theorems: the staking state machine -/

/-- C1: a successful `Stake` on an existing record first folds
`accrue(stakedAmount, now - lastStakedOrUnstaked, APR)` into the persisted
`rewards` at the old principal, and only then adds `amount` to `stakedAmount`
and stamps `lastStakedOrUnstaked = now`; on a fresh wallet a zero-field record
is created first; consequently staking 100 at `t0` and 50 at `t1` leaves
`rewards = accrue(100, t1-t0, APR)` and `stakedAmount = 150`. -/
theorem stake_folds_accrual_before_principal :
    (∀ (u : StakingUser) (w : String) (amount now : ℚ),
      w ≠ "" → 0 < amount → 0 ≤ u.stakedAmount → 0 ≤ u.rewards →
      u.lastStakedOrUnstaked ≤ now →
      stake (some u) w amount now =
        (StakeResult.ok
          { stakedAmount := u.stakedAmount + amount,
            rewards := u.rewards + accrue u.stakedAmount (now - u.lastStakedOrUnstaked) STAKING_APR,
            lastClaimed := u.lastClaimed,
            lastStakedOrUnstaked := now },
         some
          { stakedAmount := u.stakedAmount + amount,
            rewards := u.rewards + accrue u.stakedAmount (now - u.lastStakedOrUnstaked) STAKING_APR,
            lastClaimed := u.lastClaimed,
            lastStakedOrUnstaked := now })) ∧
    (∀ (w : String) (amount now : ℚ), w ≠ "" → 0 < amount →
      stake none w amount now =
        (StakeResult.ok
          { stakedAmount := amount, rewards := 0, lastClaimed := now, lastStakedOrUnstaked := now },
         some
          { stakedAmount := amount, rewards := 0, lastClaimed := now,
            lastStakedOrUnstaked := now })) ∧
    (∀ (w : String) (t0 t1 : ℚ), w ≠ "" → t0 ≤ t1 →
      (stake (stake none w 100 t0).2 w 50 t1).2 =
        some
          { stakedAmount := 150, rewards := accrue 100 (t1 - t0) STAKING_APR,
            lastClaimed := t0, lastStakedOrUnstaked := t1 }) := by
  refine ⟨fun u w amount now hw ha hs hr hle => stake_some_eq u now hw ha hs hr hle,
    fun w amount now hw ha => stake_none_eq now hw ha, ?_⟩
  intro w t0 t1 hw hle
  rw [stake_none_eq t0 hw (by norm_num)]
  rw [stake_some_eq _ t1 hw (by norm_num) (by norm_num) (by norm_num) hle]
  norm_num

/-- Witness for C1: staking 100 at `t=0` then 50 one day later yields principal
150 and checkpointed rewards `accrue(100, 86_400_000, 0.10)`. -/
theorem stake_folds_accrual_before_principal_witness :
    (stake (stake none "W1" 100 0).2 "W1" 50 86400000).2 =
      some
        { stakedAmount := 150, rewards := accrue 100 (86400000 - 0) STAKING_APR,
          lastClaimed := 0, lastStakedOrUnstaked := 86400000 } :=
  stake_folds_accrual_before_principal.2.2 "W1" 0 86400000
    (by decide) (by norm_num)

lemma claimRewards_none_eq {w : String} (now : ℚ) (hw : w ≠ "") :
    claimRewards none w now = (.notFound, none) := by
  simp only [claimRewards]
  rw [if_neg hw]

lemma claimRewards_nothing_eq (u : StakingUser) {w : String} (now : ℚ) (hw : w ≠ "")
    (h : u.rewards + calculateRewards u.stakedAmount u.lastStakedOrUnstaked now ≤ 0) :
    claimRewards (some u) w now = (.nothingToClaim, some u) := by
  simp only [claimRewards]
  rw [if_neg hw, if_pos h]

lemma claimRewards_success_eq (u : StakingUser) {w : String} (now : ℚ) (hw : w ≠ "")
    (hs : 0 ≤ u.stakedAmount)
    (h : 0 < u.rewards + calculateRewards u.stakedAmount u.lastStakedOrUnstaked now) :
    claimRewards (some u) w now =
      (.claimed (u.rewards + calculateRewards u.stakedAmount u.lastStakedOrUnstaked now),
       some { u with rewards := 0, lastClaimed := now, lastStakedOrUnstaked := now }) := by
  have hvalid : stakingUserValid
      { u with rewards := 0, lastClaimed := now, lastStakedOrUnstaked := now } = true := by
    simp only [stakingUserValid, Bool.and_eq_true, decide_eq_true_eq]
    exact ⟨hs, le_refl 0⟩
  simp only [claimRewards]
  rw [if_neg hw, if_neg (not_le.2 h), if_pos hvalid]

/-- C5: `ClaimRewards` fails with `NotFound` when no record exists and with
`NothingToClaim` when the live reward
`rewards + accrue(stakedAmount, now - lastStakedOrUnstaked, APR)` is `≤ 0`;
otherwise it returns exactly the live reward, zeroes `rewards`, and stamps both
`lastClaimed` and `lastStakedOrUnstaked` to `now`; staking 100 at `t = 0` with
APR 0.10 and claiming one day later returns `100 * (0.10/365) * 1`. -/
theorem claimRewards_returns_live_reward :
    (∀ (w : String) (now : ℚ), w ≠ "" → claimRewards none w now = (.notFound, none)) ∧
    (∀ (u : StakingUser) (w : String) (now : ℚ), w ≠ "" →
      u.rewards + accrue u.stakedAmount (now - u.lastStakedOrUnstaked) STAKING_APR ≤ 0 →
      claimRewards (some u) w now = (.nothingToClaim, some u)) ∧
    (∀ (u : StakingUser) (w : String) (now : ℚ), w ≠ "" → 0 ≤ u.stakedAmount →
      0 < u.rewards + accrue u.stakedAmount (now - u.lastStakedOrUnstaked) STAKING_APR →
      claimRewards (some u) w now =
        (.claimed (u.rewards + accrue u.stakedAmount (now - u.lastStakedOrUnstaked) STAKING_APR),
         some { u with rewards := 0, lastClaimed := now, lastStakedOrUnstaked := now })) ∧
    claimRewards (stake none "W1" 100 0).2 "W1" 86400000 =
      (.claimed (100 * (STAKING_APR / 365) * 1),
       some { stakedAmount := 100, rewards := 0, lastClaimed := 86400000,
              lastStakedOrUnstaked := 86400000 }) := by
  refine ⟨fun w now hw => claimRewards_none_eq now hw, ?_, ?_, ?_⟩
  · intro u w now hw h
    rw [← calculateRewards_eq_accrue] at h
    exact claimRewards_nothing_eq u now hw h
  · intro u w now hw hs h
    rw [← calculateRewards_eq_accrue] at h
    rw [claimRewards_success_eq u now hw hs h, calculateRewards_eq_accrue]
  · rw [show (stake none "W1" 100 0).2 =
        some { stakedAmount := 100, rewards := 0, lastClaimed := 0,
               lastStakedOrUnstaked := 0 } from by
      rw [stake_none_eq 0 (by decide) (by norm_num)]]
    rw [claimRewards_success_eq _ 86400000 (by decide) (by norm_num)
      (by norm_num [calculateRewards, STAKING_APR])]
    norm_num [calculateRewards, STAKING_APR]

/-- Witness for C5: a fresh record holding 2/73 of checkpointed rewards claims
exactly that amount. -/
theorem claimRewards_returns_live_reward_witness :
    claimRewards
        (some { stakedAmount := 100, rewards := 2/73, lastClaimed := 0,
                lastStakedOrUnstaked := 0 }) "W1" 0 =
      (.claimed (2/73 + accrue 100 (0 - 0) STAKING_APR),
       some { stakedAmount := 100, rewards := 0, lastClaimed := 0,
              lastStakedOrUnstaked := 0 }) :=
  claimRewards_returns_live_reward.2.2.1
    { stakedAmount := 100, rewards := 2/73, lastClaimed := 0, lastStakedOrUnstaked := 0 }
    "W1" 0 (by decide) (by norm_num)
    (by norm_num [accrue, STAKING_APR])

lemma unstake_none_eq {w : String} (now : ℚ) (hw : w ≠ "") :
    unstake none w now = (.notFound, none) := by
  simp only [unstake]
  rw [if_neg hw]

lemma unstake_nothing_eq (u : StakingUser) {w : String} (now : ℚ) (hw : w ≠ "")
    (h : u.stakedAmount ≤ 0) :
    unstake (some u) w now = (.nothingStaked, some u) := by
  simp only [unstake]
  rw [if_neg hw, if_pos h]

lemma unstake_success_eq (u : StakingUser) {w : String} (now : ℚ) (hw : w ≠ "")
    (h : 0 < u.stakedAmount) :
    unstake (some u) w now =
      (.unstaked (u.stakedAmount +
          (u.rewards + calculateRewards u.stakedAmount u.lastStakedOrUnstaked now)),
       some { stakedAmount := 0, rewards := 0, lastClaimed := now,
              lastStakedOrUnstaked := now }) := by
  have hvalid : stakingUserValid
      ({ stakedAmount := 0, rewards := 0, lastStakedOrUnstaked := now,
         lastClaimed := now } : StakingUser) = true := by
    simp [stakingUserValid]
  simp only [unstake]
  rw [if_neg hw, if_neg (not_le.2 h), if_pos hvalid]

/-- C6: for a record with `stakedAmount > 0`, `Unstake` folds the elapsed
accrual into `rewards`, returns `stakedAmount + rewards` (principal plus folded
rewards), then zeroes both fields and stamps both timestamps to `now`; it fails
with `NotFound` when no record exists and with `NothingStaked` when
`stakedAmount ≤ 0`, leaving the record unchanged in both failure cases. -/
theorem unstake_returns_principal_plus_rewards :
    (∀ (w : String) (now : ℚ), w ≠ "" → unstake none w now = (.notFound, none)) ∧
    (∀ (u : StakingUser) (w : String) (now : ℚ), w ≠ "" → u.stakedAmount ≤ 0 →
      unstake (some u) w now = (.nothingStaked, some u)) ∧
    (∀ (u : StakingUser) (w : String) (now : ℚ), w ≠ "" → 0 < u.stakedAmount →
      unstake (some u) w now =
        (.unstaked (u.stakedAmount +
            (u.rewards + accrue u.stakedAmount (now - u.lastStakedOrUnstaked) STAKING_APR)),
         some { stakedAmount := 0, rewards := 0, lastClaimed := now,
                lastStakedOrUnstaked := now })) := by
  refine ⟨fun w now hw => unstake_none_eq now hw,
    fun u w now hw h => unstake_nothing_eq u now hw h, ?_⟩
  intro u w now hw h
  rw [unstake_success_eq u now hw h, calculateRewards_eq_accrue]

/-- Witness for C6: unstaking a record holding 100 staked and 5 checkpointed
rewards returns 105 plus the elapsed accrual and zeroes the record. -/
theorem unstake_returns_principal_plus_rewards_witness :
    unstake
        (some { stakedAmount := 100, rewards := 5, lastClaimed := 0,
                lastStakedOrUnstaked := 0 }) "W1" 86400000 =
      (.unstaked (100 + (5 + accrue 100 (86400000 - 0) STAKING_APR)),
       some { stakedAmount := 0, rewards := 0, lastClaimed := 86400000,
              lastStakedOrUnstaked := 86400000 }) :=
  unstake_returns_principal_plus_rewards.2.2
    { stakedAmount := 100, rewards := 5, lastClaimed := 0, lastStakedOrUnstaked := 0 }
    "W1" 86400000 (by decide) (by norm_num)

/-- C8: `Query` is a pure projection: the store component is returned untouched
for every input, an existing record is reported with its stored `stakedAmount`
and the live reward `rewards + accrue(stakedAmount, now - lastStakedOrUnstaked,
APR)`, and a missing record yields the all-zero view without creating a
record. -/
theorem queryStaking_pure_projection :
    (∀ (st : Option StakingUser) (now : ℚ), (queryStaking st now).2 = st) ∧
    (∀ (u : StakingUser) (now : ℚ),
      (queryStaking (some u) now).1 =
        { stakedAmount := u.stakedAmount,
          rewards := u.rewards + accrue u.stakedAmount (now - u.lastStakedOrUnstaked) STAKING_APR,
          lastClaimed := some u.lastClaimed,
          lastStakedOrUnstaked := some u.lastStakedOrUnstaked }) ∧
    (∀ now : ℚ, queryStaking none now =
      ({ stakedAmount := 0, rewards := 0, lastClaimed := none, lastStakedOrUnstaked := none },
       none)) := by
  refine ⟨fun st now => ?_, fun u now => ?_, fun now => rfl⟩
  · cases st <;> rfl
  · simp only [queryStaking, calculateRewards_eq_accrue]

/-! ### Lemmas about the DAO voting state machine -/

lemma ne_empty_of_validSolanaAddress {w : String} (h : isValidSolanaAddress w = true) :
    w ≠ "" := by
  intro he
  subst he
  exact absurd h (by decide)

/-- A `Vote` whose inputs pass all four syntactic validations reduces to the
expiry/duplicate/count logic on the loaded proposal. -/
lemma vote_passes_validation (pid : String) (p : DaoProposal) (vt w : String)
    (now : ℚ) (hpid : pid ≠ "") (hoid : isValidObjectId pid = true)
    (hw : isValidSolanaAddress w = true) (hvt : vt = "for" ∨ vt = "against") :
    vote pid (some p) vt w now =
      (if p.expiresAt ≤ now then
        if p.status = .active then
          if daoProposalValid { p with status := .completed } now then
            (.votingClosed, some { p with status := .completed })
          else (.serverError, some p)
        else (.votingClosed, some p)
      else if w ∈ p.voters then (.duplicateVote, some p)
      else if vt = "for" then
        if daoProposalValid
            { p with votesFor := p.votesFor + 1, voters := p.voters ++ [w] } now then
          (.success { p with votesFor := p.votesFor + 1, voters := p.voters ++ [w] },
           some { p with votesFor := p.votesFor + 1, voters := p.voters ++ [w] })
        else (.serverError, some p)
      else
        if daoProposalValid
            { p with votesAgainst := p.votesAgainst + 1, voters := p.voters ++ [w] } now then
          (.success
            { p with votesAgainst := p.votesAgainst + 1, voters := p.voters ++ [w] },
           some
            { p with votesAgainst := p.votesAgainst + 1, voters := p.voters ++ [w] })
        else (.serverError, some p)) := by
  have hwne : w ≠ "" := ne_empty_of_validSolanaAddress hw
  have hvtne : vt ≠ "" := by rcases hvt with h | h <;> simp [h]
  simp only [vote]
  rw [if_neg (by push_neg; exact ⟨hpid, hvtne, hwne⟩), if_neg (not_not_intro hoid),
    if_neg (not_not_intro hw),
    if_neg (by rintro ⟨h1, h2⟩; rcases hvt with h | h; exacts [h1 h, h2 h])]

/-- The second component of a `Vote` against an existing proposal is always an
existing proposal: no branch deletes the record. -/
lemma vote_snd_some (pid vt w : String) (now : ℚ) (p : DaoProposal) :
    ∃ q, (vote pid (some p) vt w now).2 = some q := by
  simp only [vote]
  repeat' split
  all_goals exact ⟨_, rfl⟩

/-- The counters-match-voters invariant of the spec. -/
def voteInv (p : DaoProposal) : Prop :=
  p.votesFor + p.votesAgainst = p.voters.length ∧ p.voters.Nodup

/-- One `Vote` call preserves the counters-match-voters invariant. -/
lemma voteInv_step (pid vt w : String) (now : ℚ) (p q : DaoProposal)
    (hq : (vote pid (some p) vt w now).2 = some q) (hp : voteInv p) : voteInv q := by
  obtain ⟨hcount, hnodup⟩ := hp
  simp only [vote] at hq
  repeat' split at hq
  all_goals simp only [Option.some.injEq] at hq
  all_goals subst hq
  all_goals try exact ⟨hcount, hnodup⟩
  all_goals
    constructor
    · simp only [List.length_append, List.length_singleton]
      omega
    · exact hnodup.append (List.nodup_singleton w)
        (List.disjoint_singleton.2 (by assumption))

/-- Any sequence of `Vote` calls preserves the counters-match-voters
invariant. -/
lemma runVotes_inv (calls : List (String × String × String × ℚ)) (p : DaoProposal)
    (hp : voteInv p) : ∃ q, runVotes (some p) calls = some q ∧ voteInv q := by
  induction calls generalizing p with
  | nil => exact ⟨p, rfl, hp⟩
  | cons c rest ih =>
    obtain ⟨q, hq⟩ := vote_snd_some c.1 c.2.1 c.2.2.1 c.2.2.2 p
    have hinv : voteInv q := voteInv_step c.1 c.2.1 c.2.2.1 c.2.2.2 p q hq hp
    obtain ⟨r, hr, hrinv⟩ := ih q hinv
    refine ⟨r, ?_, hrinv⟩
    simpa [runVotes, hq] using hr

/-- A proposal accepted by `createProposal` starts with zero counters, an
empty voter list, `status = active` and a 7-day expiry window. -/
lemma createProposal_created {t d cw : String} {now : ℚ} {p : DaoProposal}
    (h : createProposal t d cw now = .created p) :
    p.votesFor = 0 ∧ p.votesAgainst = 0 ∧ p.voters = [] ∧ p.status = .active ∧
      p.expiresAt = now + 7 * 24 * 60 * 60 * 1000 := by
  simp only [createProposal] at h
  repeat' split at h
  all_goals simp only [CreateResult.created.injEq, reduceCtorEq] at h
  subst h
  exact ⟨rfl, rfl, rfl, rfl, rfl⟩

/-- A vote on a completed proposal never reactivates it. -/
lemma vote_status_stays_completed (pid vt w : String) (now : ℚ) (p q : DaoProposal)
    (hp : p.status = .completed) (hq : (vote pid (some p) vt w now).2 = some q) :
    q.status = .completed := by
  simp only [vote] at hq
  repeat' split at hq
  all_goals simp only [Option.some.injEq] at hq
  all_goals subst hq
  all_goals first | exact hp | rfl

/-! ### Claim theorems: the DAO voting state machine -/

/-- C3: every proposal as created by `createProposal` satisfies, after any
sequence of `Vote` calls, `votesFor + votesAgainst = |voters|` with each wallet
appearing at most once in `voters`; and a second `Vote` from a wallet already
in `voters` (within the voting window, with well-formed inputs) fails with
`DuplicateVote` and leaves the proposal unchanged. -/
theorem vote_one_per_wallet :
    (∀ (t d cw : String) (now : ℚ) (p : DaoProposal),
      createProposal t d cw now = .created p →
      p.votesFor + p.votesAgainst = p.voters.length ∧ p.voters.Nodup) ∧
    (∀ p : DaoProposal, p.votesFor + p.votesAgainst = p.voters.length → p.voters.Nodup →
      ∀ calls : List (String × String × String × ℚ),
        ∃ q, runVotes (some p) calls = some q ∧
          q.votesFor + q.votesAgainst = q.voters.length ∧ q.voters.Nodup) ∧
    (∀ (pid : String) (p : DaoProposal) (vt w : String) (now : ℚ),
      pid ≠ "" → isValidObjectId pid = true → isValidSolanaAddress w = true →
      (vt = "for" ∨ vt = "against") → now < p.expiresAt → w ∈ p.voters →
      vote pid (some p) vt w now = (.duplicateVote, some p)) := by
  refine ⟨?_, ?_, ?_⟩
  · intro t d cw now p h
    obtain ⟨h1, h2, h3, -, -⟩ := createProposal_created h
    rw [h1, h2, h3]
    exact ⟨rfl, List.nodup_nil⟩
  · intro p h1 h2 calls
    exact runVotes_inv calls p ⟨h1, h2⟩
  · intro pid p vt w now hpid hoid hw hvt hexp hmem
    rw [vote_passes_validation pid p vt w now hpid hoid hw hvt]
    rw [if_neg (not_le.2 hexp), if_pos hmem]

/-- Witness for C3: a wallet that already voted on a live proposal gets
`DuplicateVote`, and the invariant holds after a vote sequence on a fresh
proposal. -/
theorem vote_one_per_wallet_witness :
    (∃ q,
      runVotes
        (some { title := "T", description := "D",
                creatorWallet := "11111111111111111111111111111111",
                votesFor := 0, votesAgainst := 0, voters := [], expiresAt := 604800000,
                status := .active })
        [("aaaaaaaaaaaaaaaaaaaaaaaa", "for", "11111111111111111111111111111111", 1)] =
        some q ∧ q.votesFor + q.votesAgainst = q.voters.length ∧ q.voters.Nodup) ∧
    vote "aaaaaaaaaaaaaaaaaaaaaaaa"
        (some { title := "T", description := "D",
                creatorWallet := "11111111111111111111111111111111",
                votesFor := 1, votesAgainst := 0,
                voters := ["11111111111111111111111111111111"], expiresAt := 604800000,
                status := .active })
        "for" "11111111111111111111111111111111" 2 =
      (.duplicateVote,
       some { title := "T", description := "D",
              creatorWallet := "11111111111111111111111111111111",
              votesFor := 1, votesAgainst := 0,
              voters := ["11111111111111111111111111111111"], expiresAt := 604800000,
              status := .active }) :=
  ⟨vote_one_per_wallet.2.1
     { title := "T", description := "D",
       creatorWallet := "11111111111111111111111111111111",
       votesFor := 0, votesAgainst := 0, voters := [], expiresAt := 604800000,
       status := .active }
     rfl List.nodup_nil
     [("aaaaaaaaaaaaaaaaaaaaaaaa", "for", "11111111111111111111111111111111", 1)],
   vote_one_per_wallet.2.2 "aaaaaaaaaaaaaaaaaaaaaaaa"
     { title := "T", description := "D",
       creatorWallet := "11111111111111111111111111111111",
       votesFor := 1, votesAgainst := 0,
       voters := ["11111111111111111111111111111111"], expiresAt := 604800000,
       status := .active }
     "for" "11111111111111111111111111111111" 2 (by decide) (by decide) (by decide)
     (Or.inl rfl) (by norm_num) (by decide)⟩

/-- C4 (actual behavior at the failing input): the lazy-expiry status flip can
never be persisted.  `proposal.save()` re-runs the schema's
`expiresAt > Date.now()` validator on the loaded document, which necessarily
fails once `now ≥ expiresAt`, so a well-formed post-expiry `Vote` on a still
`active` proposal throws inside the save, the route answers with a 500 server
error — not `VotingClosed` — and the status stays `active`; `VotingClosed` is
only reachable for a proposal already `completed`, and no vote ever moves a
`completed` proposal back to `active`. -/
theorem vote_lazy_expiry_save_fails :
    (∀ (pid : String) (p : DaoProposal) (vt w : String) (now : ℚ),
      pid ≠ "" → isValidObjectId pid = true → isValidSolanaAddress w = true →
      (vt = "for" ∨ vt = "against") → p.expiresAt ≤ now → p.status = .active →
      vote pid (some p) vt w now = (.serverError, some p)) ∧
    (∀ (pid : String) (p : DaoProposal) (vt w : String) (now : ℚ),
      pid ≠ "" → isValidObjectId pid = true → isValidSolanaAddress w = true →
      (vt = "for" ∨ vt = "against") → p.expiresAt ≤ now → p.status = .completed →
      vote pid (some p) vt w now = (.votingClosed, some p)) ∧
    (∀ (pid : String) (p : DaoProposal) (vt w : String) (now : ℚ) (q : DaoProposal),
      p.status = .completed → (vote pid (some p) vt w now).2 = some q →
      q.status = .completed) := by
  refine ⟨?_, ?_,
    fun pid p vt w now q hp hq => vote_status_stays_completed pid vt w now p q hp hq⟩
  · intro pid p vt w now hpid hoid hw hvt hexp hact
    rw [vote_passes_validation pid p vt w now hpid hoid hw hvt]
    have hval : daoProposalValid { p with status := ProposalStatus.completed } now = false := by
      have h1 : decide (now < p.expiresAt) = false := decide_eq_false (not_lt.2 hexp)
      simp [daoProposalValid, h1]
    rw [if_pos hexp, if_pos hact, if_neg (by simp [hval])]
  · intro pid p vt w now hpid hoid hw hvt hexp hcomp
    rw [vote_passes_validation pid p vt w now hpid hoid hw hvt]
    rw [if_pos hexp, if_neg (by simp [hcomp])]

/-- Witness for C4's failing input: one day past expiry, a well-formed vote on
an active proposal returns the 500 server error and persists nothing. -/
theorem vote_lazy_expiry_save_fails_witness :
    vote "aaaaaaaaaaaaaaaaaaaaaaaa"
        (some { title := "T", description := "D",
                creatorWallet := "11111111111111111111111111111111",
                votesFor := 1, votesAgainst := 0,
                voters := ["11111111111111111111111111111111"], expiresAt := 604800000,
                status := .active })
        "against" "22222222222222222222222222222222" 691200000 =
      (.serverError,
       some { title := "T", description := "D",
              creatorWallet := "11111111111111111111111111111111",
              votesFor := 1, votesAgainst := 0,
              voters := ["11111111111111111111111111111111"], expiresAt := 604800000,
              status := .active }) :=
  vote_lazy_expiry_save_fails.1 "aaaaaaaaaaaaaaaaaaaaaaaa"
    { title := "T", description := "D",
      creatorWallet := "11111111111111111111111111111111",
      votesFor := 1, votesAgainst := 0,
      voters := ["11111111111111111111111111111111"], expiresAt := 604800000,
      status := .active }
    "against" "22222222222222222222222222222222" 691200000 (by decide) (by decide)
    (by decide) (Or.inr rfl) (by norm_num) rfl

/-! ### Claim theorems: wallet-format validation coverage -/

/-- C9 (counterexample): `Stake` does NOT enforce syntactic wallet-format
validation — a wallet string that is not a valid Solana address is accepted and
a staking record is created and persisted for it. -/
theorem stake_accepts_invalid_wallet :
    isValidSolanaAddress "abc" = false ∧
    stake none "abc" 1 0 =
      (.ok { stakedAmount := 1, rewards := 0, lastClaimed := 0, lastStakedOrUnstaked := 0 },
       some { stakedAmount := 1, rewards := 0, lastClaimed := 0,
              lastStakedOrUnstaked := 0 }) :=
  ⟨by decide, by rw [stake_none_eq 0 (by decide) (by norm_num)]⟩

/-- C9 (amended): only the DAO operations (`Vote`, `CreateProposal`) reject a
syntactically invalid wallet string before mutating state; the staking
operations (`Stake`, and likewise `ClaimRewards`/`Unstake`) only require the
wallet string to be non-empty, so a `Stake` with an invalid wallet succeeds. -/
theorem wallet_format_validation_dao_only :
    (∀ (pid : String) (p : Option DaoProposal) (vt w : String) (now : ℚ),
      pid ≠ "" → vt ≠ "" → w ≠ "" → isValidObjectId pid = true →
      isValidSolanaAddress w = false →
      vote pid p vt w now = (.invalidWallet, p)) ∧
    (∀ (t d w : String) (now : ℚ), t ≠ "" → d ≠ "" → w ≠ "" →
      isValidSolanaAddress w = false →
      createProposal t d w now = .invalidWallet) ∧
    (∀ (w : String) (amount now : ℚ), w ≠ "" → isValidSolanaAddress w = false →
      0 < amount →
      stake none w amount now =
        (.ok { stakedAmount := amount, rewards := 0, lastClaimed := now,
               lastStakedOrUnstaked := now },
         some { stakedAmount := amount, rewards := 0, lastClaimed := now,
                lastStakedOrUnstaked := now })) := by
  refine ⟨?_, ?_, fun w amount now hw _ ha => stake_none_eq now hw ha⟩
  · intro pid p vt w now hpid hvt hw hoid hinvalid
    simp only [vote]
    rw [if_neg (by push_neg; exact ⟨hpid, hvt, hw⟩), if_neg (not_not_intro hoid),
      if_pos (by simp [hinvalid])]
  · intro t d w now ht hd hw hinvalid
    simp only [createProposal]
    rw [if_neg (by push_neg; exact ⟨ht, hd, hw⟩), if_pos (by simp [hinvalid])]

/-- Witness for the amended C9: the invalid wallet string `abc` is rejected by
`Vote` and `CreateProposal` but accepted by `Stake`. -/
theorem wallet_format_validation_dao_only_witness :
    vote "aaaaaaaaaaaaaaaaaaaaaaaa" none "for" "abc" 0 = (.invalidWallet, none) ∧
    createProposal "Test proposal title" "A long enough proposal description." "abc" 0 =
      .invalidWallet ∧
    stake none "abc" 2 5 =
      (.ok { stakedAmount := 2, rewards := 0, lastClaimed := 5, lastStakedOrUnstaked := 5 },
       some { stakedAmount := 2, rewards := 0, lastClaimed := 5,
              lastStakedOrUnstaked := 5 }) :=
  ⟨wallet_format_validation_dao_only.1 "aaaaaaaaaaaaaaaaaaaaaaaa" none "for" "abc" 0
     (by decide) (by decide) (by decide) (by decide) (by decide),
   wallet_format_validation_dao_only.2.1 "Test proposal title"
     "A long enough proposal description." "abc" 0 (by decide) (by decide) (by decide)
     (by decide),
   wallet_format_validation_dao_only.2.2 "abc" 2 5 (by decide) (by decide) (by norm_num)⟩

/-! ### Claim theorems: concurrency of the stake handler -/

/-- C10 (counterexample): the load-fold-mutate-persist cycle is NOT serialized.
Interleaving two concurrent `Stake(wallet, 1)` handlers on the same fresh
wallet as load₀, load₁, save₀, save₁ makes both load the absent record, and the
final `stakedAmount` is 1 — one increment is lost — instead of 2. -/
theorem concurrent_stakes_lose_update :
    (runSchedule 1 0 (ConcState.init 2 none) [0, 1, 0, 1]).store =
      some { stakedAmount := 1, rewards := 0, lastClaimed := 0,
             lastStakedOrUnstaked := 0 } ∧
    (runSchedule 1 0 (ConcState.init 2 none) [0, 1, 0, 1]).store ≠
      some { stakedAmount := 2, rewards := 0, lastClaimed := 0,
             lastStakedOrUnstaked := 0 } := by
  have h : (runSchedule 1 0 (ConcState.init 2 none) [0, 1, 0, 1]).store =
      some { stakedAmount := 1, rewards := 0, lastClaimed := 0,
             lastStakedOrUnstaked := 0 } := by
    norm_num [runSchedule, List.foldl, concStep, ConcState.init, StakeThread.init,
      List.replicate, stakeCompute, newStakingUser, stakingUserValid, calculateRewards,
      STAKING_APR]
  refine ⟨h, ?_⟩
  rw [h]
  intro hc
  simp only [Option.some.injEq, StakingUser.mk.injEq] at hc
  norm_num at hc

/-- C10 (amended): the code performs no per-key serialization and concurrent
stakes can lose updates (see the counterexample); when the `Stake` transitions
on a wallet do execute serially — each load-mutate-save completing before the
next begins — `n + 1` calls of `Stake(wallet, 1)` on a fresh wallet leave
`stakedAmount = n + 1` with no lost update. -/
theorem serialized_stakes_accumulate :
    ∀ (w : String) (t : ℚ) (n : ℕ), w ≠ "" →
      stakeN w 1 t (n + 1) =
        some { stakedAmount := ((n : ℚ) + 1), rewards := 0, lastClaimed := t,
               lastStakedOrUnstaked := t } := by
  intro w t n hw
  induction n with
  | zero =>
    show (stake none w 1 t).2 = _
    rw [stake_none_eq t hw (by norm_num)]
    norm_num
  | succ n ih =>
    show (stake (stakeN w 1 t (n + 1)) w 1 t).2 = _
    rw [ih, stake_some_eq _ t hw (by norm_num) (by positivity) (le_refl 0) (le_refl t)]
    simp only [sub_self, accrue_zero_elapsed, add_zero, Option.some.injEq,
      StakingUser.mk.injEq]
    refine ⟨by push_cast; ring, ?_, ?_, ?_⟩ <;> trivial

/-- Witness for the amended C10: three serialized stakes of 1 leave a principal
of 3. -/
theorem serialized_stakes_accumulate_witness :
    stakeN "W1" 1 0 3 =
      some { stakedAmount := ((2 : ℚ) + 1), rewards := 0, lastClaimed := 0,
             lastStakedOrUnstaked := 0 } :=
  serialized_stakes_accumulate "W1" 0 2 (by decide)

end Foxcoin
